import Mathlib

/-!
Verification of the generic request/endpoint/response framework of the
orats-python repository, against its natural-language specification.

The embedding below is a shallow model of the framework code:

* `src/orats/errors.py` — the error hierarchy (`OratsError`,
  `InsufficientPermissionsError`); pydantic validation failures are modelled
  by `CallError.schemaValidation`.
* `src/orats/endpoints/data/response.py` — `DataApiResponse` and its
  `check_failures` validator, modelled by `parseEnvelope`.
* `src/orats/endpoints/data/endpoints.py` — `_handle_response`, the generic
  `DataApiEndpoint` (`__call__`, `_key`, `_url`, `_update_params`, `_get`)
  and `StrikesByOptionsEndpoint` (`__call__`, `_post`), modelled by
  `handleResponse`, `endpointCall` and `strikesByOptionsCall`.
* `src/orats/endpoints/data/cache.py` — `RequestCache`, a class whose only
  state is the class-level dictionary `_cache`, modelled by `CacheWorld`
  plus instance-taking operations.
* `src/orats/model/data/request.py` — `dependency_check`,
  `_MultipleTickersHistoryTemplateRequest` and the `BoundedRange` rendering
  inputs of `StrikesRequest`.

Python `None` maps to `Option.none`; exceptions map to `Except.error`;
mutation of the shared cache dictionary is explicit state passing.
-/

namespace Orats

/-- Errors raised by the framework (`src/orats/errors.py` plus pydantic
validation failures).  `serverReported m` is `OratsError(m)` raised by the
`check_failures` validator; `insufficientPermissions` is
`InsufficientPermissionsError` raised on HTTP status 403; `schemaValidation`
stands for a pydantic `ValidationError` while coercing raw records.  The
source defines no transport-level error class. -/
inductive CallError where
  | serverReported (message : String)
  | insufficientPermissions
  | schemaValidation (detail : String)
deriving DecidableEq

/-- A Python scalar value as it occurs in rendered request dictionaries:
strings, integers, float literals (identified by their `str()` rendering,
since the framework only ever applies `str()` to them), the `Ellipsis`
sentinel used as the unbounded marker of `BoundedRange`, and `None`. -/
inductive PyScalar where
  | str (s : String)
  | int (n : Int)
  | floatLit (render : String)
  | ellipsis
  | none
deriving DecidableEq

/-- A value of a request parameter mapping: either a scalar or a flat
sequence (Python tuple or list; `_update_params` treats both alike via
`isinstance(param, Iterable)`).  The dictionaries produced by
`request.dict(by_alias=True)` in this code base are flat, so no nesting is
modelled. -/
inductive PyParam where
  | scalar (v : PyScalar)
  | seq (items : List PyScalar)
deriving DecidableEq

/-- Python `str()` applied to a scalar, as `_update_params` and `_key` do. -/
def pyStr : PyScalar → String
  | .str s => s
  | .int n => toString n
  | .floatLit render => render
  | .ellipsis => "Ellipsis"
  | .none => "None"

/-- `DataApiEndpoint._update_params`: start from `dict(token=self._token)`,
skip parameters that are `None`, comma-join non-string iterables with
`str()` applied to each element, and keep every other value as is. -/
def updateParams (token : String) (params : List (String × PyParam)) :
    List (String × PyParam) :=
  ("token", PyParam.scalar (PyScalar.str token)) ::
    params.filterMap fun kv =>
      match kv.2 with
      | PyParam.scalar PyScalar.none => Option.none
      | PyParam.scalar v => Option.some (kv.1, PyParam.scalar v)
      | PyParam.seq items =>
          Option.some
            (kv.1,
              PyParam.scalar
                (PyScalar.str (String.intercalate "," (items.map pyStr))))

/-- The raw decoded reply of the Data API: the keyword arguments passed to
`DataApiResponse(**...)`.  `ρ` is the type of one raw record element of the
`data` list. -/
structure Envelope (ρ : Type) where
  data : Option (List ρ)
  message : Option String
  error : Option String
deriving DecidableEq

/-- `DataApiResponse[T](**env)` from `src/orats/endpoints/data/response.py`,
for a record validator `validate` (the pydantic coercion of one raw element
into the construct type `T`).  Pydantic v1 validates the fields in
declaration order — `data`, then `message`, then `error` — collecting
per-element coercion failures of `data` into a deferred `ValidationError`,
while the `check_failures` validator raises `OratsError(v)` immediately for
any supplied non-`None` value of `message` or `error` (including the empty
string).  Hence a present `message` wins, then a present `error`, and only
then does a `data` coercion failure surface. -/
def parseEnvelope {ρ τ : Type} (validate : ρ → Except String τ)
    (env : Envelope ρ) : Except CallError (Option (List τ)) :=
  let dataRes : Except String (Option (List τ)) :=
    match env.data with
    | Option.none => .ok Option.none
    | Option.some raws => (raws.mapM validate).map Option.some
  match env.message with
  | Option.some m => .error (.serverReported m)
  | Option.none =>
    match env.error with
    | Option.some m => .error (.serverReported m)
    | Option.none =>
      match dataRes with
      | .error f => .error (.schemaValidation f)
      | .ok d => .ok d

/-- An `httpx.Response` reduced to what `_handle_response` inspects: the
status code and the decoded JSON body. -/
structure HttpResponse (ρ : Type) where
  statusCode : Nat
  jsonBody : Envelope ρ

/-- `_handle_response` from `src/orats/endpoints/data/endpoints.py`: status
403 raises `InsufficientPermissionsError`; every other response has its
JSON body returned with no status check at all. -/
def handleResponse {ρ : Type} (resp : HttpResponse ρ) :
    Except CallError (Envelope ρ) :=
  if resp.statusCode = 403 then .error .insufficientPermissions
  else .ok resp.jsonBody

/-- The shared request cache contents: the class-level dictionary
`RequestCache._cache`, keyed by the string produced by
`DataApiEndpoint._key` and holding sequences of constructs.  Later writes
shadow earlier bindings, as in a Python dict. -/
def Cache (τ : Type) : Type := List (String × List τ)

/-- Python dict lookup on the cache (first binding wins, newest first). -/
def cacheLookup {τ : Type} : Cache τ → String → Option (List τ)
  | [], _ => Option.none
  | (k, v) :: rest, q => if k = q then Option.some v else cacheLookup rest q

/-- Python dict assignment `cache[key] = value`. -/
def cacheSet {τ : Type} (c : Cache τ) (k : String) (v : List τ) : Cache τ :=
  (k, v) :: c

/-- HTTP request method chosen by an endpoint call. -/
inductive HttpMethod where
  | get
  | post
deriving DecidableEq

/-- One transport invocation as performed by the module-level `_get` /
`_post` helpers: method, url, query parameters, and — for POST — the JSON
body, a list of rendered request objects. -/
structure TransportCall where
  method : HttpMethod
  url : String
  params : List (String × PyParam)
  body : Option (List (List (String × PyParam)))
deriving DecidableEq

/-- The per-endpoint configuration of `DataApiEndpoint`: `_resource`, the
`_is_historical` class flag, the token passed at construction, and the
`mock` flag. -/
structure Endpoint where
  resource : String
  isHistoricalFlag : Bool
  token : String
  mock : Bool

/-- `DataApiEndpoint._base_url`. -/
def baseUrl : String := "https://api.orats.io/datav2"

/-- `"/".join((self._base_url, resource))` on its two components. -/
def joinPath (base resource : String) : String := base ++ "/" ++ resource

/-- `DataApiEndpoint._url`: prefix the resource with the `hist/` namespace
segment when historical, then join onto the base url. -/
def urlFor (e : Endpoint) (historical : Bool) : String :=
  joinPath baseUrl (if historical then "hist/" ++ e.resource else e.resource)

/-- `DataApiEndpoint._key`: `f"{resource}-{joined}"` where `joined` is the
dash-join of `str()` applied to the request dictionary values; here the
components arrive already stringified. -/
def keyFor (e : Endpoint) (components : List String) : String :=
  e.resource ++ "-" ++ String.intercalate "-" components

/-- Modelled from the spec: one Data API request object.  The pydantic
request-class module imported by the endpoints
(`orats/endpoints/data/request.py`, defining `DataApiRequest` and its
`DataHistoryApiRequest` subclasses) is not part of the sources; following
the spec, a request carries its canonical parameter values (`dict()`
values, stringified as `_key` does), its alias-rendered wire parameters
(`dict(by_alias=True)`), its JSON rendering (`json(by_alias=True)` after
`json.loads`), whether its class is a history request type (an instance of
`DataHistoryApiRequest`, the only classes declaring a `trade_date` field),
and its optional trade date. -/
structure DataRequest where
  isHistoryType : Bool
  tradeDate : Option Nat
  dictValues : List String
  wireParams : List (String × PyParam)
  jsonByAlias : List (String × PyParam)

/-- The historical/current decision of `DataApiEndpoint._get`:
`is_historical = self._is_historical`, and if that is false and the request
is a `DataHistoryApiRequest`, `is_historical = request.trade_date is not
None`. -/
def isHistoricalDispatch (e : Endpoint) (r : DataRequest) : Bool :=
  e.isHistoricalFlag || (r.isHistoryType && r.tradeDate.isSome)

/-- The GET transport invocation assembled by `DataApiEndpoint._get`. -/
def getDispatch (e : Endpoint) (r : DataRequest) : TransportCall :=
  { method := HttpMethod.get
    url := urlFor e (isHistoricalDispatch e r)
    params := updateParams e.token r.wireParams
    body := Option.none }

/-- The POST transport invocation assembled by
`StrikesByOptionsEndpoint._post`: the current (non-historical) url, only
the token as query parameter, and the JSON-rendered array of all requests
as body. -/
def postDispatch (e : Endpoint) (requests : List DataRequest) : TransportCall :=
  { method := HttpMethod.post
    url := urlFor e false
    params := updateParams e.token []
    body := Option.some (requests.map (·.jsonByAlias)) }

/-- `common.as_responses(construct_type, values)`: build one construct per
raw value via `construct_type(**value)`; the first pydantic failure aborts
the whole list. -/
def asResponses {ρ τ : Type} (validate : ρ → Except String τ)
    (values : List ρ) : Except CallError (List τ) :=
  match values.mapM validate with
  | .error f => .error (.schemaValidation f)
  | .ok l => .ok l

/-- `response.data or ()`: an absent data list yields the empty sequence
(and an empty list is already empty). -/
def orEmpty {τ : Type} (d : Option (List τ)) : List τ := d.getD []

/-- The outcome of one endpoint call: the returned records or the
propagated exception, the cache contents after the call, the transport
invocations performed, and whether the `DataApiResponse` envelope parser
was applied (instrumentation for the substitutability claims). -/
structure CallResult (τ : Type) where
  result : Except CallError (List τ)
  cache : Cache τ
  transportCalls : List TransportCall
  parserUsed : Bool

/-- `DataApiEndpoint.__call__`: in mock mode, return
`self._generate_fake_data(request)` (the generator raws pushed through
`common.as_responses`) without touching transport, parser or cache.
Otherwise compute the cache key from the request dictionary values, return
a cached result on hit, and on miss perform the GET dispatch, parse the
envelope via `DataApiResponse`, and store `response.data or ()` in the
cache before returning it.  `validate` is the pydantic coercion of one raw
record into the endpoint construct type; `gen` is the raw output of the
fake data generator; `transport` abstracts `httpx.get` composed with
`_handle_response` and JSON decoding. -/
def endpointCall {ρ τ : Type} (e : Endpoint) (validate : ρ → Except String τ)
    (gen : DataRequest → List ρ)
    (transport : TransportCall → Except CallError (Envelope ρ))
    (cache : Cache τ) (r : DataRequest) : CallResult τ :=
  if e.mock then
    { result := asResponses validate (gen r)
      cache := cache
      transportCalls := []
      parserUsed := false }
  else
    let k := keyFor e r.dictValues
    match cacheLookup cache k with
    | Option.some v =>
        { result := .ok v, cache := cache, transportCalls := [], parserUsed := false }
    | Option.none =>
      let tc := getDispatch e r
      match transport tc with
      | .error err =>
          { result := .error err, cache := cache, transportCalls := [tc], parserUsed := false }
      | .ok env =>
        match parseEnvelope validate env with
        | .error err =>
            { result := .error err, cache := cache, transportCalls := [tc], parserUsed := true }
        | .ok d =>
            { result := .ok (orEmpty d)
              cache := cacheSet cache k (orEmpty d)
              transportCalls := [tc]
              parserUsed := true }

/-- The POST branch of `StrikesByOptionsEndpoint.__call__`: one `_post`
invocation, its envelope parsed by the same `DataApiResponse` machinery,
`response.data or ()` returned, and — unlike the single-request path — no
cache interaction at all. -/
def batchPostCall {ρ τ : Type} (e : Endpoint) (validate : ρ → Except String τ)
    (transport : TransportCall → Except CallError (Envelope ρ))
    (cache : Cache τ) (requests : List DataRequest) : CallResult τ :=
  let tc := postDispatch e requests
  match transport tc with
  | .error err =>
      { result := .error err, cache := cache, transportCalls := [tc], parserUsed := false }
  | .ok env =>
    match parseEnvelope validate env with
    | .error err =>
        { result := .error err, cache := cache, transportCalls := [tc], parserUsed := true }
    | .ok d =>
        { result := .ok (orEmpty d), cache := cache, transportCalls := [tc], parserUsed := true }

/-- `StrikesByOptionsEndpoint.__call__`: mock mode first (one generated raw
per request, via `common.as_responses`); then exactly one request uses the
inherited single-entity GET path (`super().__call__`), while any other
argument count goes to the batch POST path. -/
def strikesByOptionsCall {ρ τ : Type} (e : Endpoint)
    (validate : ρ → Except String τ) (genOne : DataRequest → ρ)
    (transport : TransportCall → Except CallError (Envelope ρ))
    (cache : Cache τ) (requests : List DataRequest) : CallResult τ :=
  if e.mock then
    { result := asResponses validate (requests.map genOne)
      cache := cache
      transportCalls := []
      parserUsed := false }
  else
    match requests with
    | [r] => endpointCall e validate (fun q => [genOne q]) transport cache r
    | rs => batchPostCall e validate transport cache rs

/-- A `RequestCache` instance.  The class defines no instance attributes:
every instance only ever reads and mutates the class-level dictionary
`RequestCache._cache`, so an instance carries nothing but its identity. -/
structure RequestCacheInst where
  instId : Nat

/-- The process-wide state behind `RequestCache`: the single class-level
dictionary `_cache` shared by every instance (mutated in place, never
rebound). -/
structure CacheWorld (τ : Type) where
  classDict : Cache τ

/-- `RequestCache.__getitem__` — reads the class-level dictionary,
whichever instance it is invoked on. -/
def RequestCache.getItem {τ : Type} (_self : RequestCacheInst)
    (w : CacheWorld τ) (k : String) : Option (List τ) :=
  cacheLookup w.classDict k

/-- `RequestCache.__setitem__` — writes the class-level dictionary in
place, whichever instance it is invoked on. -/
def RequestCache.setItem {τ : Type} (_self : RequestCacheInst)
    (w : CacheWorld τ) (k : String) (v : List τ) : CacheWorld τ :=
  { classDict := cacheSet w.classDict k v }

/-- `RequestCache.__contains__` — membership in the class-level
dictionary, whichever instance it is invoked on. -/
def RequestCache.containsItem {τ : Type} (_self : RequestCacheInst)
    (w : CacheWorld τ) (k : String) : Bool :=
  (cacheLookup w.classDict k).isSome

/-- `dependency_check` from `src/orats/model/data/request.py`: raise
`ValueError("one of tickers or trade_date is required")` when the already
validated `tickers` value and the incoming `trade_date` value are both
`None`; otherwise return the value unchanged. -/
def dependencyCheck (tickers : Option (List String)) (v : Option Nat) :
    Except String (Option Nat) :=
  if tickers.isNone && v.isNone then
    .error "one of `tickers` or `trade_date` is required"
  else .ok v

/-- `_MultipleTickersHistoryTemplateRequest`: optional tickers, optional
field subset, optional trade date. -/
structure MultipleTickersHistoryRequest where
  tickers : Option (List String)
  fields : Option (List String)
  tradeDate : Option Nat
deriving DecidableEq

/-- Construction of a `_MultipleTickersHistoryTemplateRequest` under
pydantic v1 semantics.  Each argument is `Option.none` when the keyword was
not supplied at all and `Option.some v` when it was supplied with value
`v` (possibly `None`).  An omitted field takes its declared default `None`;
crucially, the `trade_date` validator is declared without `always=True`,
so pydantic skips `dependency_check` entirely when `trade_date` is not
supplied. -/
def mkMultipleTickersHistoryRequest
    (tickersArg : Option (Option (List String)))
    (fieldsArg : Option (Option (List String)))
    (tradeDateArg : Option (Option Nat)) :
    Except String MultipleTickersHistoryRequest :=
  let tickers := tickersArg.getD Option.none
  let fields := fieldsArg.getD Option.none
  match tradeDateArg with
  | Option.none => .ok ⟨tickers, fields, Option.none⟩
  | Option.some v => (dependencyCheck tickers v).map (⟨tickers, fields, ·⟩)

/-- One side of a `BoundedRange` from `src/orats/model/data/request.py`:
a numeric bound or the `...` (Ellipsis) placeholder documented as the way
to ignore a bound. -/
inductive RangeBound where
  | val (n : Int)
  | unbounded
deriving DecidableEq

/-- The scalar stored in the request dictionary for one range side: the
number itself, or the `Ellipsis` object. -/
def RangeBound.toScalar : RangeBound → PyScalar
  | .val n => PyScalar.int n
  | .unbounded => PyScalar.ellipsis

/-- The dictionary value of an optional `BoundedRange` field: `None` when
the filter is absent, otherwise the two-element tuple of its sides. -/
def rangeParam : Option (RangeBound × RangeBound) → PyParam
  | Option.none => PyParam.scalar PyScalar.none
  | Option.some (a, b) => PyParam.seq [a.toScalar, b.toScalar]

/-- `StrikesRequest.dict(by_alias=True)`: tickers under alias `ticker`,
optional field subset under `fields`, the optional expiration range under
`dte` and the optional delta range under `delta`.  The delta bounds are
floats in the source; only `str()` is ever applied to a bound, so integer
bounds exercise the identical rendering path. -/
def strikesRequestDict (tickers : List String) (fields : Option (List String))
    (expirationRange deltaRange : Option (RangeBound × RangeBound)) :
    List (String × PyParam) :=
  [("ticker", PyParam.seq (tickers.map PyScalar.str)),
   ("fields",
     match fields with
     | Option.none => PyParam.scalar PyScalar.none
     | Option.some fs => PyParam.seq (fs.map PyScalar.str)),
   ("dte", rangeParam expirationRange),
   ("delta", rangeParam deltaRange)]

/-- A concrete `StrikesByOptionsEndpoint` configuration (resource
`strikes/options`, no historical flag, real transport). -/
def sampleEndpoint : Endpoint := ⟨"strikes/options", false, "demo", false⟩

/-- A concrete strikes-by-options request for AAPL. -/
def sampleRequestA : DataRequest :=
  { isHistoryType := false
    tradeDate := Option.none
    dictValues := ["AAPL", "2022-01-21", "150.0"]
    wireParams := [("ticker", PyParam.scalar (PyScalar.str "AAPL")),
                   ("expirDate", PyParam.scalar (PyScalar.str "2022-01-21")),
                   ("strike", PyParam.scalar (PyScalar.floatLit "150.0"))]
    jsonByAlias := [("ticker", PyParam.scalar (PyScalar.str "AAPL")),
                    ("expirDate", PyParam.scalar (PyScalar.str "2022-01-21")),
                    ("strike", PyParam.scalar (PyScalar.floatLit "150.0"))] }

/-- A concrete strikes-by-options request for MSFT. -/
def sampleRequestB : DataRequest :=
  { isHistoryType := false
    tradeDate := Option.none
    dictValues := ["MSFT", "2022-01-21", "300.0"]
    wireParams := [("ticker", PyParam.scalar (PyScalar.str "MSFT")),
                   ("expirDate", PyParam.scalar (PyScalar.str "2022-01-21")),
                   ("strike", PyParam.scalar (PyScalar.floatLit "300.0"))]
    jsonByAlias := [("ticker", PyParam.scalar (PyScalar.str "MSFT")),
                    ("expirDate", PyParam.scalar (PyScalar.str "2022-01-21")),
                    ("strike", PyParam.scalar (PyScalar.floatLit "300.0"))] }

/-- A transport oracle that always succeeds with a one-row envelope. -/
def okTransport : TransportCall → Except CallError (Envelope String) :=
  fun _ => Except.ok ⟨Option.some ["row1"], Option.none, Option.none⟩

/-- A transport oracle that always fails with the permission error. -/
def failTransport : TransportCall → Except CallError (Envelope String) :=
  fun _ => Except.error CallError.insufficientPermissions

/-- A record validator that accepts every raw string unchanged. -/
def idValidate : String → Except String String := Except.ok

/- ### Helper lemmas about the call machinery -/

/-- Overwriting a key makes it the binding that lookup finds. -/
theorem cacheLookup_cacheSet_self {τ : Type} (c : Cache τ) (k : String)
    (v : List τ) : cacheLookup (cacheSet c k v) k = Option.some v := by
  simp [cacheSet, cacheLookup]

/-- Shape of a non-mock call on a cache hit. -/
theorem endpointCall_hit {ρ τ : Type} (e : Endpoint)
    (validate : ρ → Except String τ) (gen : DataRequest → List ρ)
    (transport : TransportCall → Except CallError (Envelope ρ))
    (cache : Cache τ) (r : DataRequest) {v : List τ}
    (hm : e.mock = false)
    (hc : cacheLookup cache (keyFor e r.dictValues) = Option.some v) :
    endpointCall e validate gen transport cache r
      = ⟨.ok v, cache, [], false⟩ := by
  simp [endpointCall, hm, hc]

/-- Shape of a non-mock call on a cache miss whose transport fails. -/
theorem endpointCall_miss_transport_error {ρ τ : Type} (e : Endpoint)
    (validate : ρ → Except String τ) (gen : DataRequest → List ρ)
    (transport : TransportCall → Except CallError (Envelope ρ))
    (cache : Cache τ) (r : DataRequest) {err : CallError}
    (hm : e.mock = false)
    (hc : cacheLookup cache (keyFor e r.dictValues) = Option.none)
    (ht : transport (getDispatch e r) = .error err) :
    endpointCall e validate gen transport cache r
      = ⟨.error err, cache, [getDispatch e r], false⟩ := by
  simp [endpointCall, hm, hc, ht]

/-- Shape of a non-mock call on a cache miss whose envelope fails to
parse. -/
theorem endpointCall_miss_parse_error {ρ τ : Type} (e : Endpoint)
    (validate : ρ → Except String τ) (gen : DataRequest → List ρ)
    (transport : TransportCall → Except CallError (Envelope ρ))
    (cache : Cache τ) (r : DataRequest) {env : Envelope ρ} {err : CallError}
    (hm : e.mock = false)
    (hc : cacheLookup cache (keyFor e r.dictValues) = Option.none)
    (ht : transport (getDispatch e r) = .ok env)
    (hp : parseEnvelope validate env = .error err) :
    endpointCall e validate gen transport cache r
      = ⟨.error err, cache, [getDispatch e r], true⟩ := by
  simp [endpointCall, hm, hc, ht, hp]

/-- Shape of a fully successful non-mock call on a cache miss. -/
theorem endpointCall_miss_ok {ρ τ : Type} (e : Endpoint)
    (validate : ρ → Except String τ) (gen : DataRequest → List ρ)
    (transport : TransportCall → Except CallError (Envelope ρ))
    (cache : Cache τ) (r : DataRequest) {env : Envelope ρ}
    {d : Option (List τ)}
    (hm : e.mock = false)
    (hc : cacheLookup cache (keyFor e r.dictValues) = Option.none)
    (ht : transport (getDispatch e r) = .ok env)
    (hp : parseEnvelope validate env = .ok d) :
    endpointCall e validate gen transport cache r
      = ⟨.ok (orEmpty d),
         cacheSet cache (keyFor e r.dictValues) (orEmpty d),
         [getDispatch e r], true⟩ := by
  simp [endpointCall, hm, hc, ht, hp]

/- ### Claim theorems -/

/-- Claim C10: all `RequestCache` instances alias one process-wide
class-level dictionary.  An entry written through one instance is
immediately visible, with the same value, through membership test and
lookup on any other instance, and writing never removes an existing
entry (reads are pure by their type). -/
theorem C10_request_cache_shared {τ : Type} (a b : RequestCacheInst)
    (w : CacheWorld τ) (k : String) (v : List τ) :
    RequestCache.containsItem b (RequestCache.setItem a w k v) k = true
    ∧ RequestCache.getItem b (RequestCache.setItem a w k v) k = Option.some v
    ∧ (∀ q, RequestCache.containsItem b w q = true →
        RequestCache.containsItem b (RequestCache.setItem a w k v) q = true) := by
  refine ⟨?_, ?_, ?_⟩
  · simp [RequestCache.containsItem, RequestCache.setItem, cacheSet, cacheLookup]
  · simp [RequestCache.getItem, RequestCache.setItem, cacheSet, cacheLookup]
  · intro q hq
    simp [RequestCache.containsItem, RequestCache.setItem, cacheSet,
      cacheLookup] at hq ⊢
    by_cases hkq : k = q
    · simp [hkq]
    · simpa [hkq] using hq

/-- Witness for C10: a write through instance 0 is visible through
instance 1, and the pre-existing entry survives. -/
theorem C10_witness :
    RequestCache.containsItem ⟨1⟩
      (RequestCache.setItem ⟨0⟩ (⟨[("k0", [5])]⟩ : CacheWorld Nat) "k" [7]) "k" = true
    ∧ RequestCache.getItem ⟨1⟩
      (RequestCache.setItem ⟨0⟩ (⟨[("k0", [5])]⟩ : CacheWorld Nat) "k" [7]) "k"
        = Option.some [7]
    ∧ RequestCache.containsItem ⟨1⟩
      (RequestCache.setItem ⟨0⟩ (⟨[("k0", [5])]⟩ : CacheWorld Nat) "k" [7]) "k0" = true := by
  have h := C10_request_cache_shared (τ := Nat) ⟨0⟩ ⟨1⟩ ⟨[("k0", [5])]⟩ "k" [7]
  exact ⟨h.1, h.2.1, h.2.2 "k0" (by decide)⟩

/-- Claim C5 (counterexample): a status-500 response — a non-success
status other than 403 — is not surfaced as any error: `_handle_response`
returns its parsed body unchanged, so no generic transport error is ever
raised (none exists in `errors.py`). -/
theorem C5_counterexample :
    handleResponse (ρ := Nat)
        ⟨500, ⟨Option.some [1], Option.none, Option.none⟩⟩
      = Except.ok ⟨Option.some [1], Option.none, Option.none⟩ := by
  rfl

/-- Claim C5 (amended): a 403 status is converted to
`InsufficientPermissionsError` and never retried; a response with any
other status — success or not — has its body returned unchanged with no
status check. -/
theorem C5_status_handling {ρ : Type} (resp : HttpResponse ρ) :
    (resp.statusCode = 403 →
      handleResponse resp = .error .insufficientPermissions)
    ∧ (resp.statusCode ≠ 403 → handleResponse resp = .ok resp.jsonBody) := by
  constructor <;> intro h <;> simp [handleResponse, h]

/-- Witness for C5 at statuses 403 and 200. -/
theorem C5_witness :
    handleResponse (ρ := Nat) ⟨403, ⟨Option.none, Option.none, Option.none⟩⟩
      = .error .insufficientPermissions
    ∧ handleResponse (ρ := Nat) ⟨200, ⟨Option.some [1], Option.none, Option.none⟩⟩
      = .ok ⟨Option.some [1], Option.none, Option.none⟩ := by
  exact ⟨(C5_status_handling _).1 rfl, (C5_status_handling _).2 (by decide)⟩

/-- Claim C2 (counterexample): an envelope whose `error` field is present
but EMPTY still fails — `check_failures` tests `v is not None`, not
non-emptiness — refuting the "present and non-empty" iff of the claim. -/
theorem C2_counterexample :
    parseEnvelope (fun n : Nat => Except.ok n)
        ⟨Option.some [1], Option.none, Option.some ""⟩
      = .error (.serverReported "")
    ∧ "".isEmpty = true := by
  exact ⟨rfl, rfl⟩

/-- Claim C2 (amended): parsing fails with a server-reported error iff the
`message` or `error` field is present (not `None`), regardless of
emptiness; a present `message` always wins, then a present `error` —
in particular an envelope with a non-empty `data` list and a present
`error` field yields the server-reported failure and never records. -/
theorem C2_server_error_precedence {ρ τ : Type}
    (validate : ρ → Except String τ) (env : Envelope ρ) :
    ((∃ m, parseEnvelope validate env = .error (.serverReported m))
      ↔ (env.message.isSome || env.error.isSome) = true)
    ∧ (∀ m, env.message = Option.some m →
        parseEnvelope validate env = .error (.serverReported m))
    ∧ (∀ m, env.message = Option.none → env.error = Option.some m →
        parseEnvelope validate env = .error (.serverReported m)) := by
  rcases env with ⟨d, msg, err⟩
  refine ⟨⟨?_, ?_⟩, ?_, ?_⟩
  · rintro ⟨m, hm⟩
    cases msg with
    | some m2 => simp
    | none =>
      cases err with
      | some m2 => simp
      | none =>
        exfalso
        cases d with
        | none => simp [parseEnvelope] at hm
        | some raws =>
          have h2 : (match (raws.mapM validate).map Option.some with
              | Except.error f =>
                  (Except.error (CallError.schemaValidation f) :
                    Except CallError (Option (List τ)))
              | Except.ok dd => Except.ok dd)
              = Except.error (CallError.serverReported m) := hm
          cases hmm : raws.mapM validate with
          | error f => rw [hmm] at h2; simp [Except.map] at h2
          | ok l => rw [hmm] at h2; simp [Except.map] at h2
  · intro h
    cases msg with
    | some m => exact ⟨m, by simp [parseEnvelope]⟩
    | none =>
      cases err with
      | some m => exact ⟨m, by simp [parseEnvelope]⟩
      | none => simp at h
  · intro m hmsg
    cases hmsg
    simp [parseEnvelope]
  · intro m hmsg herr
    cases hmsg
    cases herr
    simp [parseEnvelope]

/-- Witness for C2: an envelope with both a non-empty data list and a
non-empty error field fails with exactly that server-reported message. -/
theorem C2_witness :
    parseEnvelope (fun n : Nat => Except.ok n)
        ⟨Option.some [1], Option.none, Option.some "boom"⟩
      = .error (.serverReported "boom") := by
  exact (C2_server_error_precedence (fun n : Nat => Except.ok n)
    ⟨Option.some [1], Option.none, Option.some "boom"⟩).2.2 "boom" rfl rfl

/-- Claim C7 (code bug): pydantic skips the `trade_date` validator when
the field is not supplied (its `validator` lacks `always=True`), so
constructing a `_MultipleTickersHistoryTemplateRequest` with NEITHER
tickers nor trade date present succeeds, contradicting the validator's
own message `one of tickers or trade_date is required`.  Explicitly
passing `trade_date=None` does trigger the check, and supplying either
field alone succeeds as the claim states. -/
theorem C7_dependency_check_eval :
    mkMultipleTickersHistoryRequest Option.none Option.none Option.none
      = .ok ⟨Option.none, Option.none, Option.none⟩
    ∧ mkMultipleTickersHistoryRequest Option.none Option.none
        (Option.some Option.none)
      = .error "one of `tickers` or `trade_date` is required"
    ∧ mkMultipleTickersHistoryRequest (Option.some (Option.some ["IBM"]))
        Option.none Option.none
      = .ok ⟨Option.some ["IBM"], Option.none, Option.none⟩
    ∧ mkMultipleTickersHistoryRequest Option.none Option.none
        (Option.some (Option.some 20220101))
      = .ok ⟨Option.none, Option.none, Option.some 20220101⟩ := by
  exact ⟨rfl, rfl, rfl, rfl⟩

/-- Claim C8 (code bug): a `BoundedRange` with unbounded sides renders the
`Ellipsis` sentinel literally — `str(...)` is `"Ellipsis"` — so a fully
unbounded `dte` filter renders as `"Ellipsis,Ellipsis"` instead of being
omitted like an absent filter, and a half-bounded one renders as
`"30,Ellipsis"` instead of `"30,"`. -/
theorem C8_ellipsis_rendering_eval :
    List.lookup "dte"
        (updateParams "tok" (strikesRequestDict ["IBM"] Option.none
          (Option.some (RangeBound.unbounded, RangeBound.unbounded))
          Option.none))
      = Option.some (PyParam.scalar (PyScalar.str "Ellipsis,Ellipsis"))
    ∧ List.lookup "dte"
        (updateParams "tok" (strikesRequestDict ["IBM"] Option.none
          Option.none Option.none))
      = Option.none
    ∧ List.lookup "dte"
        (updateParams "tok" (strikesRequestDict ["IBM"] Option.none
          (Option.some (RangeBound.val 30, RangeBound.unbounded))
          Option.none))
      = Option.some (PyParam.scalar (PyScalar.str "30,Ellipsis")) := by
  exact ⟨rfl, rfl, rfl⟩

/-- Claim C4: a dispatch targets the historical wire path iff the request
carries a non-absent trade date or the endpoint class is marked always
historical (given that only `DataHistoryApiRequest` subclasses declare a
`trade_date` field, which is the hypothesis), and the historical url is
the current url with the resource path put under the fixed `hist/`
namespace segment of the same base url. -/
theorem C4_historical_dispatch (e : Endpoint) (r : DataRequest)
    (hty : r.tradeDate.isSome = true → r.isHistoryType = true) :
    isHistoricalDispatch e r = (r.tradeDate.isSome || e.isHistoricalFlag)
    ∧ urlFor e true = baseUrl ++ "/" ++ ("hist/" ++ e.resource)
    ∧ urlFor e false = baseUrl ++ "/" ++ e.resource := by
  refine ⟨?_, rfl, rfl⟩
  cases hts : r.tradeDate.isSome with
  | true => simp [isHistoricalDispatch, hty hts, hts]
  | false => simp [isHistoricalDispatch, hts]

/-- Witness for C4: a history-type request with a trade date on a
non-historical endpoint dispatches to the historical path. -/
theorem C4_witness :
    isHistoricalDispatch ⟨"summaries", false, "demo", false⟩
        ⟨true, Option.some 20220101, [], [], []⟩ = true
    ∧ urlFor ⟨"summaries", false, "demo", false⟩ true
        = baseUrl ++ "/" ++ ("hist/" ++ "summaries") := by
  have h := C4_historical_dispatch ⟨"summaries", false, "demo", false⟩
    ⟨true, Option.some 20220101, [], [], []⟩ (fun _ => rfl)
  exact ⟨h.1, h.2.1⟩

/-- Claim C9 (counterexample): a mock-mode endpoint call never applies the
`DataApiResponse` envelope parser — the generated constructs are returned
directly, transport is never consulted (here it would even fail), so the
generated raw data does not participate in the parser path of a network
response. -/
theorem C9_counterexample :
    (endpointCall ⟨"tickers", false, "demo", true⟩ idValidate
        (fun _ => ["rawIBM"]) failTransport []
        ⟨false, Option.none, [], [], []⟩).parserUsed = false
    ∧ (endpointCall ⟨"tickers", false, "demo", true⟩ idValidate
        (fun _ => ["rawIBM"]) failTransport []
        ⟨false, Option.none, [], [], []⟩).result = Except.ok ["rawIBM"]
    ∧ (endpointCall ⟨"tickers", false, "demo", true⟩ idValidate
        (fun _ => ["rawIBM"]) failTransport []
        ⟨false, Option.none, [], [], []⟩).transportCalls = [] := by
  exact ⟨rfl, rfl, rfl⟩

/-- Claim C9 (amended): in mock mode the endpoint bypasses transport,
cache and the envelope parser, but the records it returns are exactly
what the envelope parser would produce on an envelope carrying the
generated raw data — the same per-record schema validation is applied on
both paths. -/
theorem C9_mock_parser_equivalence {ρ τ : Type} (e : Endpoint)
    (validate : ρ → Except String τ) (gen : DataRequest → List ρ)
    (transport : TransportCall → Except CallError (Envelope ρ))
    (cache : Cache τ) (r : DataRequest) (hm : e.mock = true) :
    (endpointCall e validate gen transport cache r).result
      = (parseEnvelope validate
          ⟨Option.some (gen r), Option.none, Option.none⟩).map orEmpty
    ∧ (endpointCall e validate gen transport cache r).cache = cache
    ∧ (endpointCall e validate gen transport cache r).transportCalls = [] := by
  refine ⟨?_, by simp [endpointCall, hm], by simp [endpointCall, hm]⟩
  have hres : (endpointCall e validate gen transport cache r).result
      = asResponses validate (gen r) := by
    simp [endpointCall, hm]
  rw [hres]
  have hparse : parseEnvelope validate
      ⟨Option.some (gen r), Option.none, Option.none⟩
      = (match ((gen r).mapM validate).map Option.some with
        | Except.error f =>
            (Except.error (CallError.schemaValidation f) :
              Except CallError (Option (List τ)))
        | Except.ok dd => Except.ok dd) := rfl
  rw [hparse]
  have hAs : asResponses validate (gen r)
      = (match (gen r).mapM validate with
        | Except.error f =>
            (Except.error (CallError.schemaValidation f) :
              Except CallError (List τ))
        | Except.ok l => Except.ok l) := rfl
  rw [hAs]
  cases hmm : (gen r).mapM validate with
  | error f => rfl
  | ok l => rfl

/-- Witness for C9: the result of a concrete mock call coincides with the
envelope parser applied to the generated data. -/
theorem C9_witness :
    (endpointCall ⟨"strikes", false, "demo", true⟩ idValidate
        (fun _ => ["a", "b"]) failTransport []
        ⟨false, Option.none, [], [], []⟩).result
      = (parseEnvelope idValidate
          ⟨Option.some ["a", "b"], Option.none, Option.none⟩).map orEmpty := by
  exact (C9_mock_parser_equivalence ⟨"strikes", false, "demo", true⟩ idValidate
    (fun _ => ["a", "b"]) failTransport [] ⟨false, Option.none, [], [], []⟩ rfl).1

/-- Claim C1 (counterexample): the batch POST path of
`StrikesByOptionsEndpoint.__call__` never touches the request cache, so
two calls with EQUAL request parameter values perform two transport
invocations — not at most one — and the second is not served from the
cache (which stays empty). -/
theorem C1_counterexample :
    (strikesByOptionsCall sampleEndpoint idValidate (fun _ => "raw")
        okTransport [] [sampleRequestA, sampleRequestB]).transportCalls.length
      + (strikesByOptionsCall sampleEndpoint idValidate (fun _ => "raw")
          okTransport
          (strikesByOptionsCall sampleEndpoint idValidate (fun _ => "raw")
            okTransport [] [sampleRequestA, sampleRequestB]).cache
          [sampleRequestA, sampleRequestB]).transportCalls.length = 2
    ∧ (strikesByOptionsCall sampleEndpoint idValidate (fun _ => "raw")
        okTransport [] [sampleRequestA, sampleRequestB]).cache = [] := by
  exact ⟨rfl, rfl⟩

/-- Claim C1 (amended): for the single-request (GET) path with mock
disabled, two calls whose requests have equal canonical parameter values
perform at most one transport invocation in total; when the first call
succeeds, the second is served from the cache without transport and
returns the same record sequence. -/
theorem C1_single_request_cache_idempotence {ρ τ : Type} (e : Endpoint)
    (validate : ρ → Except String τ) (gen : DataRequest → List ρ)
    (transport : TransportCall → Except CallError (Envelope ρ))
    (cache : Cache τ) (r r2 : DataRequest) (d : List τ)
    (hm : e.mock = false) (heq : r2.dictValues = r.dictValues)
    (h1 : (endpointCall e validate gen transport cache r).result = .ok d) :
    (endpointCall e validate gen transport
        (endpointCall e validate gen transport cache r).cache r2).transportCalls = []
    ∧ (endpointCall e validate gen transport
        (endpointCall e validate gen transport cache r).cache r2).result = .ok d
    ∧ (endpointCall e validate gen transport cache r).transportCalls.length ≤ 1 := by
  cases hc : cacheLookup cache (keyFor e r.dictValues) with
  | some v =>
    have hfst := endpointCall_hit e validate gen transport cache r hm hc
    rw [hfst] at h1
    have hvd : v = d := by simpa using h1
    subst hvd
    have hc2 : cacheLookup cache (keyFor e r2.dictValues) = Option.some v := by
      rw [heq]; exact hc
    have hsnd := endpointCall_hit e validate gen transport cache r2 hm hc2
    rw [hfst, hsnd]
    exact ⟨rfl, rfl, by simp⟩
  | none =>
    cases ht : transport (getDispatch e r) with
    | error err =>
      rw [endpointCall_miss_transport_error e validate gen transport cache r
        hm hc ht] at h1
      simp at h1
    | ok env =>
      cases hp : parseEnvelope validate env with
      | error err =>
        rw [endpointCall_miss_parse_error e validate gen transport cache r
          hm hc ht hp] at h1
        simp at h1
      | ok dd =>
        have hfst := endpointCall_miss_ok e validate gen transport cache r
          hm hc ht hp
        rw [hfst] at h1
        have hdd : orEmpty dd = d := by simpa using h1
        have hc2 : cacheLookup
            (cacheSet cache (keyFor e r.dictValues) (orEmpty dd))
            (keyFor e r2.dictValues) = Option.some (orEmpty dd) := by
          rw [heq]; exact cacheLookup_cacheSet_self cache _ _
        have hsnd := endpointCall_hit e validate gen transport
          (cacheSet cache (keyFor e r.dictValues) (orEmpty dd)) r2 hm hc2
        rw [hfst, hsnd, hdd]
        exact ⟨rfl, rfl, by simp⟩

/-- Witness for C1: two identical single-request calls against a real
transport — the second performs no transport invocation and returns the
first call's records. -/
theorem C1_witness :
    (endpointCall sampleEndpoint idValidate (fun _ => ([] : List String))
        okTransport
        (endpointCall sampleEndpoint idValidate (fun _ => [])
          okTransport [] sampleRequestA).cache
        sampleRequestA).transportCalls = []
    ∧ (endpointCall sampleEndpoint idValidate (fun _ => ([] : List String))
        okTransport
        (endpointCall sampleEndpoint idValidate (fun _ => [])
          okTransport [] sampleRequestA).cache
        sampleRequestA).result = .ok ["row1"] := by
  have h := C1_single_request_cache_idempotence sampleEndpoint idValidate
    (fun _ => []) okTransport [] sampleRequestA sampleRequestA ["row1"]
    rfl rfl rfl
  exact ⟨h.1, h.2.1⟩

/-- Claim C3: a call that fails in transport or in envelope parsing leaves
the cache unchanged and propagates the error unchanged; a repeated
identical call dispatches to transport again, and the cache changes only
when a call fully succeeds. -/
theorem C3_no_cache_on_failure {ρ τ : Type} (e : Endpoint)
    (validate : ρ → Except String τ) (gen : DataRequest → List ρ)
    (transport : TransportCall → Except CallError (Envelope ρ))
    (cache : Cache τ) (r : DataRequest) (hm : e.mock = false) :
    (∀ err, (endpointCall e validate gen transport cache r).result = .error err →
      (endpointCall e validate gen transport cache r).cache = cache
      ∧ (endpointCall e validate gen transport
          (endpointCall e validate gen transport cache r).cache r).transportCalls.length = 1)
    ∧ (∀ err, cacheLookup cache (keyFor e r.dictValues) = Option.none →
        transport (getDispatch e r) = .error err →
        (endpointCall e validate gen transport cache r).result = .error err)
    ∧ (∀ err env, cacheLookup cache (keyFor e r.dictValues) = Option.none →
        transport (getDispatch e r) = .ok env →
        parseEnvelope validate env = .error err →
        (endpointCall e validate gen transport cache r).result = .error err)
    ∧ ((endpointCall e validate gen transport cache r).cache ≠ cache →
        ∃ d, (endpointCall e validate gen transport cache r).result = .ok d) := by
  refine ⟨?_, ?_, ?_, ?_⟩
  · intro err herr
    cases hc : cacheLookup cache (keyFor e r.dictValues) with
    | some v =>
      rw [endpointCall_hit e validate gen transport cache r hm hc] at herr
      simp at herr
    | none =>
      cases ht : transport (getDispatch e r) with
      | error err2 =>
        have hfst := endpointCall_miss_transport_error e validate gen
          transport cache r hm hc ht
        rw [hfst]
        refine ⟨rfl, ?_⟩
        cases ht2 : transport (getDispatch e r) with
        | error err3 =>
          rw [endpointCall_miss_transport_error e validate gen transport
            cache r hm hc ht2]
          rfl
        | ok env =>
          cases hp : parseEnvelope validate env with
          | error err3 =>
            rw [endpointCall_miss_parse_error e validate gen transport
              cache r hm hc ht2 hp]
            rfl
          | ok dd =>
            rw [endpointCall_miss_ok e validate gen transport cache r
              hm hc ht2 hp]
            rfl
      | ok env =>
        cases hp : parseEnvelope validate env with
        | error err2 =>
          have hfst := endpointCall_miss_parse_error e validate gen transport
            cache r hm hc ht hp
          rw [hfst]
          refine ⟨rfl, ?_⟩
          rw [endpointCall_miss_parse_error e validate gen transport cache r
            hm hc ht hp]
          rfl
        | ok dd =>
          rw [endpointCall_miss_ok e validate gen transport cache r
            hm hc ht hp] at herr
          simp at herr
  · intro err hc ht
    rw [endpointCall_miss_transport_error e validate gen transport cache r
      hm hc ht]
  · intro err env hc ht hp
    rw [endpointCall_miss_parse_error e validate gen transport cache r
      hm hc ht hp]
  · intro hne
    cases hc : cacheLookup cache (keyFor e r.dictValues) with
    | some v =>
      rw [endpointCall_hit e validate gen transport cache r hm hc] at hne
      exact absurd rfl hne
    | none =>
      cases ht : transport (getDispatch e r) with
      | error err =>
        rw [endpointCall_miss_transport_error e validate gen transport
          cache r hm hc ht] at hne
        exact absurd rfl hne
      | ok env =>
        cases hp : parseEnvelope validate env with
        | error err =>
          rw [endpointCall_miss_parse_error e validate gen transport cache r
            hm hc ht hp] at hne
          exact absurd rfl hne
        | ok dd =>
          rw [endpointCall_miss_ok e validate gen transport cache r
            hm hc ht hp]
          exact ⟨orEmpty dd, rfl⟩

/-- Witness for C3: a call against an always-failing transport leaves the
cache empty and surfaces the permission error unchanged. -/
theorem C3_witness :
    (endpointCall sampleEndpoint idValidate (fun _ => ([] : List String))
        failTransport [] sampleRequestA).cache = []
    ∧ (endpointCall sampleEndpoint idValidate (fun _ => ([] : List String))
        failTransport [] sampleRequestA).result
      = .error CallError.insufficientPermissions := by
  have h := C3_no_cache_on_failure sampleEndpoint idValidate (fun _ => [])
    failTransport [] sampleRequestA rfl
  exact ⟨(h.1 CallError.insufficientPermissions rfl).1,
    h.2.1 CallError.insufficientPermissions rfl rfl⟩

/-- Claim C6: one request goes through the single-entity GET path of the
parent class (dispatching, on a cache miss, exactly one GET carrying the
rendered wire parameters), while more than one request triggers exactly
one POST whose body is the JSON-rendered array of all the individually
rendered requests, its envelope handled by the same parser as the
single-entity case. -/
theorem C6_transport_mode_dispatch {ρ τ : Type} (e : Endpoint)
    (validate : ρ → Except String τ) (genOne : DataRequest → ρ)
    (transport : TransportCall → Except CallError (Envelope ρ))
    (cache : Cache τ) (r : DataRequest) (requests : List DataRequest)
    (hm : e.mock = false) :
    (strikesByOptionsCall e validate genOne transport cache [r]
      = endpointCall e validate (fun q => [genOne q]) transport cache r)
    ∧ (cacheLookup cache (keyFor e r.dictValues) = Option.none →
        (strikesByOptionsCall e validate genOne transport cache [r]).transportCalls
          = [getDispatch e r]
        ∧ (getDispatch e r).method = HttpMethod.get
        ∧ (getDispatch e r).params = updateParams e.token r.wireParams)
    ∧ (1 < requests.length →
        (strikesByOptionsCall e validate genOne transport cache requests).transportCalls
          = [postDispatch e requests]
        ∧ (postDispatch e requests).method = HttpMethod.post
        ∧ (postDispatch e requests).body
            = Option.some (requests.map (·.jsonByAlias))
        ∧ ∀ env, transport (postDispatch e requests) = .ok env →
            (strikesByOptionsCall e validate genOne transport cache requests).result
              = (parseEnvelope validate env).map orEmpty) := by
  have hsingle : strikesByOptionsCall e validate genOne transport cache [r]
      = endpointCall e validate (fun q => [genOne q]) transport cache r := by
    simp [strikesByOptionsCall, hm]
  refine ⟨hsingle, ?_, ?_⟩
  · intro hc
    rw [hsingle]
    refine ⟨?_, rfl, rfl⟩
    cases ht : transport (getDispatch e r) with
    | error err =>
      rw [endpointCall_miss_transport_error e validate (fun q => [genOne q])
        transport cache r hm hc ht]
    | ok env =>
      cases hp : parseEnvelope validate env with
      | error err =>
        rw [endpointCall_miss_parse_error e validate (fun q => [genOne q])
          transport cache r hm hc ht hp]
      | ok dd =>
        rw [endpointCall_miss_ok e validate (fun q => [genOne q])
          transport cache r hm hc ht hp]
  · intro hlen
    match requests, hlen with
    | r1 :: r2 :: rest, _ =>
      have hbatch : strikesByOptionsCall e validate genOne transport cache
          (r1 :: r2 :: rest)
          = batchPostCall e validate transport cache (r1 :: r2 :: rest) := by
        simp [strikesByOptionsCall, hm]
      refine ⟨?_, rfl, rfl, ?_⟩
      · rw [hbatch]
        cases ht : transport (postDispatch e (r1 :: r2 :: rest)) with
        | error err => simp [batchPostCall, ht]
        | ok env =>
          cases hp : parseEnvelope validate env with
          | error err => simp [batchPostCall, ht, hp]
          | ok dd => simp [batchPostCall, ht, hp]
      · intro env ht
        rw [hbatch]
        cases hp : parseEnvelope validate env with
        | error err => simp [batchPostCall, ht, hp, Except.map]
        | ok dd => simp [batchPostCall, ht, hp, Except.map]

/-- Witness for C6: two concrete requests produce exactly the POST
dispatch with both rendered requests as body, and a single request routes
through the inherited GET path. -/
theorem C6_witness :
    (strikesByOptionsCall sampleEndpoint idValidate (fun _ => "raw")
        okTransport [] [sampleRequestA, sampleRequestB]).transportCalls
      = [postDispatch sampleEndpoint [sampleRequestA, sampleRequestB]]
    ∧ strikesByOptionsCall sampleEndpoint idValidate (fun _ => "raw")
        okTransport [] [sampleRequestA]
      = endpointCall sampleEndpoint idValidate (fun _ => ["raw"])
          okTransport [] sampleRequestA := by
  have h := C6_transport_mode_dispatch sampleEndpoint idValidate
    (fun _ => "raw") okTransport [] sampleRequestA
    [sampleRequestA, sampleRequestB] rfl
  exact ⟨(h.2.2 (by decide)).1, h.1⟩

end Orats
